import Mathlib

/-!
# Verification of the care-bot-central health chat core

A shallow embedding of the repository's algorithmic core:

* the health-query matcher (`searchHealthInformation`, `calculateSimilarity`,
  `generateHealthResponse`, `isDiseaseQuery`, `getSuggestedDiseaseTerms`
  from `ChatBot`), and
* the audio capture session (`VoiceRecorder.startRecording`,
  `stopRecording`, `cleanup`, `isRecording`, `convertBlobToBase64`).

JavaScript strings are modelled as `List Char`; `String.prototype.split`,
`includes`, `toLowerCase`, `trim` are modelled by explicit recursive
functions on character lists.  Numbers produced by `calculateSimilarity`
are modelled as exact rationals (the ratios that arise have denominators
far too small for IEEE-754 rounding of `0.7` to change any comparison).
-/

namespace CareBot

/-- Model of a JavaScript string: a list of (UTF-16-ish) characters. -/
abbrev JStr := List Char

/-- `s.toLowerCase()`. -/
def toLowerJ (s : JStr) : JStr := s.map Char.toLower

/-- `s.split(sep)` for a single-character separator, JS semantics:
`''.split(' ') = ['']`, separators at the ends produce empty fields. -/
def splitJ (sep : Char) : JStr → List JStr
  | [] => [[]]
  | c :: cs =>
    if c = sep then [] :: splitJ sep cs
    else
      match splitJ sep cs with
      | [] => [[c]]
      | w :: ws => (c :: w) :: ws

/-- `a.includes(b)`: `b` occurs as a contiguous substring of `a`. -/
def includesJ (a b : JStr) : Bool := decide (b <:+: a)

/-- One row of the `health_information` table (`HealthInfo` in `ChatBot`). -/
structure HealthInfo where
  id : JStr
  title : JStr
  description : JStr
  category : JStr
  tags : JStr
deriving DecidableEq, Repr

/-- Positional match count used by `calculateSimilarity`:
`shorter.split('').filter((char, i) => longer[i] === char).length`,
the number of positions `i < shorter.length` with `longer[i] = shorter[i]`. -/
def matchCount : (shorter longer : JStr) → Nat
  | c :: cs, d :: ds => (if d = c then 1 else 0) + matchCount cs ds
  | _, _ => 0

/-- `calculateSimilarity(str1, str2)` from `ChatBot`: 0 when either string is
shorter than 3 characters, otherwise the fraction of positions (up to the
shorter length) where the two strings agree, divided by the longer length. -/
def calculateSimilarity (str1 str2 : JStr) : ℚ :=
  if str1.length < 3 ∨ str2.length < 3 then 0
  else
    let longer := if str1.length > str2.length then str1 else str2
    let shorter := if str1.length > str2.length then str2 else str1
    if longer.length = 0 then 1
    else (matchCount shorter longer : ℚ) / (longer.length : ℚ)

/-- The search terms of `searchHealthInformation`:
`userInput.toLowerCase().split(' ').filter(term => term.length > 2)`. -/
def searchTermsOf (userInput : JStr) : List JStr :=
  (splitJ ' ' (toLowerJ userInput)).filter (fun t => 2 < t.length)

/-- Priority 1 predicate: some search term equals the lower-cased title. -/
def tier1 (terms : List JStr) (info : HealthInfo) : Bool :=
  terms.any (fun t => toLowerJ info.title = t)

/-- Priority 2 predicate: the lower-cased title contains a search term of
length > 3. -/
def tier2 (terms : List JStr) (info : HealthInfo) : Bool :=
  terms.any (fun t => includesJ (toLowerJ info.title) t && decide (3 < t.length))

/-- Priority 3 predicate: the lower-cased category or tags string contains a
search term (`info.tags ? info.tags.toLowerCase() : ''`). -/
def tier3 (terms : List JStr) (info : HealthInfo) : Bool :=
  terms.any (fun t =>
    includesJ (toLowerJ info.category) t ||
    includesJ (if info.tags.isEmpty then [] else toLowerJ info.tags) t)

/-- A kernel-computable decision procedure for the 0.7 similarity threshold:
the rational comparison is equivalent to a cross-multiplied natural-number
comparison (proved here), which the kernel can evaluate. -/
instance decCalcSimGtSeven (s1 s2 : JStr) :
    Decidable ((7 : ℚ) / 10 < calculateSimilarity s1 s2) :=
  decidable_of_iff
    (¬(s1.length < 3 ∨ s2.length < 3) ∧
      7 * (if s1.length > s2.length then s1 else s2).length <
        10 * matchCount (if s1.length > s2.length then s2 else s1)
          (if s1.length > s2.length then s1 else s2))
    (by
      by_cases h : s1.length < 3 ∨ s2.length < 3
      · simp only [calculateSimilarity, if_pos h]
        simp only [h, not_true_eq_false, false_and, false_iff, not_lt]
        norm_num
      · have hLpos : 0 < (if s1.length > s2.length then s1 else s2).length := by
          split_ifs <;> omega
        simp only [calculateSimilarity, if_neg h]
        rw [if_neg (by omega : ¬ (if s1.length > s2.length then s1 else s2).length = 0)]
        rw [div_lt_div_iff₀ (by norm_num) (by exact_mod_cast hLpos)]
        simp only [h, not_false_eq_true, true_and]
        constructor
        · intro hlt
          have : ((7 * (if s1.length > s2.length then s1 else s2).length : ℕ) : ℚ) <
              ((10 * matchCount (if s1.length > s2.length then s2 else s1)
                (if s1.length > s2.length then s1 else s2) : ℕ) : ℚ) := by exact_mod_cast hlt
          push_cast at this
          linarith
        · intro hlt
          have : ((7 * (if s1.length > s2.length then s1 else s2).length : ℕ) : ℚ) <
              ((10 * matchCount (if s1.length > s2.length then s2 else s1)
                (if s1.length > s2.length then s1 else s2) : ℕ) : ℚ) := by
            push_cast
            linarith
          exact_mod_cast this)

/-- Priority 4 predicate: some word of the lower-cased title contains / is
contained in a search term, or has `calculateSimilarity` above 0.7 with it. -/
def tier4 (terms : List JStr) (info : HealthInfo) : Bool :=
  terms.any (fun t =>
    (splitJ ' ' (toLowerJ info.title)).any (fun w =>
      includesJ w t || includesJ t w ||
      decide (calculateSimilarity w t > (7 : ℚ) / 10)))

/-- `searchHealthInformation(userInput)` from `ChatBot`: four priority tiers,
each an `Array.prototype.find` over the table in original order, the next
tier tried only when the previous one found nothing. -/
def searchHealthInformation (userInput : JStr) (healthInformation : List HealthInfo) :
    Option HealthInfo :=
  match healthInformation.find? (tier1 (searchTermsOf userInput)) with
  | some info => some info
  | none =>
    match healthInformation.find? (tier2 (searchTermsOf userInput)) with
    | some info => some info
    | none =>
      match healthInformation.find? (tier3 (searchTermsOf userInput)) with
      | some info => some info
      | none => healthInformation.find? (tier4 (searchTermsOf userInput))

/-- The fixed stem list of `isDiseaseQuery`. -/
def diseaseKeywords : List JStr :=
  ["disease".data, "illness".data, "condition".data, "symptom".data,
   "syndrome".data, "disorder".data, "infection".data, "virus".data,
   "bacteria".data, "cancer".data, "tumor".data, "pain".data, "ache".data,
   "fever".data, "inflammation".data, "allergy".data, "diabetes".data,
   "hypertension".data, "depression".data, "anxiety".data, "asthma".data,
   "arthritis".data]

/-- `isDiseaseQuery(input)`: some fixed keyword occurs in the lower-cased
input. -/
def isDiseaseQuery (input : JStr) : Bool :=
  diseaseKeywords.any (fun keyword => includesJ (toLowerJ input) keyword)

/-- The fixed disease-name list of `getSuggestedDiseaseTerms`. -/
def commonDiseases : List JStr :=
  ["diabetes".data, "hypertension".data, "heart disease".data, "asthma".data,
   "arthritis".data, "depression".data, "anxiety".data, "cancer".data,
   "stroke".data, "pneumonia".data, "bronchitis".data, "allergies".data,
   "migraine".data, "obesity".data]

/-- `getSuggestedDiseaseTerms(input)`: disease names related to the input by
first-word containment, at most 3, joined by a comma; a fixed fallback when
none relate. -/
def getSuggestedDiseaseTerms (input : JStr) : JStr :=
  let related := commonDiseases.filter (fun disease =>
    includesJ disease ((splitJ ' ' input).headD []) ||
    includesJ input ((splitJ ' ' disease).headD []))
  if 0 < related.length then
    List.intercalate ", ".data (related.take 3)
  else
    "specific disease name, symptoms you\x27re experiencing, or the affected body part".data

/-- The formatted reply for a matched `HealthInfo` record. -/
def formatHealthInfoResponse (info : HealthInfo) : JStr :=
  "**".data ++ info.title ++ "**\n\n".data ++ info.description ++
  "\n\n**Category:** ".data ++ info.category ++
  (if info.tags.isEmpty then [] else "\n**Related Topics:** ".data ++ info.tags) ++
  "\n\n*Please remember that this is general health information. For personalized medical advice, always consult with a healthcare professional.*".data

/-- The reply of the disease-keyword fallback branch. -/
def diseaseFallbackResponse (userInput : JStr) (suggestedTerms : JStr) : JStr :=
  "I understand you\x27re asking about a health condition. While I don\x27t have specific information about \"".data ++
  userInput ++
  "\" in my database, I recommend:\n\n1. Consulting with a healthcare professional for accurate diagnosis and treatment\n2. Trying more specific search terms like: ".data ++
  suggestedTerms ++
  "\n3. Searching for the category of condition (e.g., \"heart disease\", \"skin condition\", \"respiratory illness\")\n\nPlease feel free to ask about specific symptoms or health topics!".data

/-- The fixed exercise/workout/fitness reply. -/
def exerciseResponse : JStr :=
  "Regular exercise is crucial for maintaining good health. It can improve cardiovascular health, strengthen muscles and bones, boost mental health, and help maintain a healthy weight. Aim for at least 150 minutes of moderate-intensity exercise per week. However, please consult with a healthcare provider before starting any new exercise program.".data

/-- The fixed diet/nutrition/food reply. -/
def dietResponse : JStr :=
  "A balanced diet is essential for good health. Focus on eating a variety of fruits, vegetables, whole grains, lean proteins, and healthy fats. Stay hydrated by drinking plenty of water. Limit processed foods, added sugars, and excessive sodium. For personalized nutrition advice, consider consulting with a registered dietitian.".data

/-- The fixed sleep/tired/insomnia reply. -/
def sleepResponse : JStr :=
  "Good sleep is vital for physical and mental health. Adults should aim for 7-9 hours of quality sleep per night. Establish a regular sleep schedule, create a comfortable sleep environment, and avoid screens before bedtime. If you\x27re experiencing persistent sleep problems, consult with a healthcare provider.".data

/-- The fixed stress/anxiety/mental-health reply. -/
def stressResponse : JStr :=
  "Managing stress and maintaining mental health is crucial for overall well-being. Try relaxation techniques like deep breathing, meditation, or yoga. Regular exercise, adequate sleep, and social connections can also help. If you\x27re experiencing persistent mental health concerns, please reach out to a mental health professional.".data

/-- The generic disclaimer reply returned when nothing matches. -/
def genericResponse : JStr :=
  "I understand your health concern. Based on general medical knowledge, it\x27s always best to maintain a healthy lifestyle with regular exercise, balanced nutrition, adequate sleep, and stress management. However, for specific medical advice or concerns, please consult with a qualified healthcare professional who can provide personalized guidance based on your individual health needs.".data

/-- `generateHealthResponse(userInput)` from `ChatBot`: table match first, then
the disease-keyword branch, then the four fixed-topic keyword branches, then
the generic disclaimer. -/
def generateHealthResponse (userInput : JStr) (healthInformation : List HealthInfo) : JStr :=
  match searchHealthInformation userInput healthInformation with
  | some relevantInfo => formatHealthInfoResponse relevantInfo
  | none =>
    let input := toLowerJ userInput
    if isDiseaseQuery input then
      diseaseFallbackResponse userInput (getSuggestedDiseaseTerms input)
    else if includesJ input "exercise".data || includesJ input "workout".data ||
            includesJ input "fitness".data then
      exerciseResponse
    else if includesJ input "diet".data || includesJ input "nutrition".data ||
            includesJ input "food".data then
      dietResponse
    else if includesJ input "sleep".data || includesJ input "tired".data ||
            includesJ input "insomnia".data then
      sleepResponse
    else if includesJ input "stress".data || includesJ input "anxiety".data ||
            includesJ input "mental health".data then
      stressResponse
    else
      genericResponse

/-- The twelve fixed-topic keywords of the four canned branches, in the order
the code tests them. -/
def fixedTopicKeywords : List JStr :=
  ["exercise".data, "workout".data, "fitness".data, "diet".data,
   "nutrition".data, "food".data, "sleep".data, "tired".data,
   "insomnia".data, "stress".data, "anxiety".data, "mental health".data]

/-- JavaScript whitespace characters handled by `String.prototype.trim`
(the subset relevant here). -/
def isJsSpace (c : Char) : Bool :=
  c = ' ' || c = '\t' || c = '\n' || c = '\r' || c = '\x0b' || c = '\x0c' ||
  c = '\u00A0' || c = '\uFEFF'

/-- `s.trim()`: strip leading and trailing whitespace. -/
def trimJ (s : JStr) : JStr :=
  ((s.dropWhile isJsSpace).reverse.dropWhile isJsSpace).reverse

/-- Modelled from the spec: the tags field is "comma-separated free-text
labels", so a *parsed tag* is one comma-separated field of the lower-cased
tags string, trimmed; an absent/empty tags field parses to no tags. -/
def parsedTags (tags : JStr) : List JStr :=
  if tags.isEmpty then [] else (splitJ ',' (toLowerJ tags)).map trimJ

/-- Modelled from the spec: the words the spec's tier-4 sentence quantifies
over — "any word of the title, category, or a parsed tag". -/
def specFuzzyWords (info : HealthInfo) : List JStr :=
  splitJ ' ' (toLowerJ info.title) ++ splitJ ' ' (toLowerJ info.category) ++
  parsedTags info.tags

/-- Modelled from the spec: the tier-4 condition as the spec states it —
some word of the title, category, or a parsed tag overlaps a search term via
substring containment in either direction, or has character-position
similarity above 0.7 with it. -/
def specTier4 (terms : List JStr) (info : HealthInfo) : Bool :=
  terms.any (fun t =>
    (specFuzzyWords info).any (fun w =>
      includesJ w t || includesJ t w ||
      decide (calculateSimilarity w t > (7 : ℚ) / 10)))

/-! ## Base64 and `convertBlobToBase64` -/

/-- The base64 alphabet in index order. -/
def base64Alphabet : JStr :=
  "ABCDEFGHIJKLMNOPQRSTUVWXYZabcdefghijklmnopqrstuvwxyz0123456789+/".data

/-- The base64 digit for a 6-bit value. -/
def b64Char (n : Nat) : Char := base64Alphabet.getD n 'A'

/-- The 6-bit value of a base64 digit, `none` for characters outside the
alphabet. -/
def b64DecodeChar (c : Char) : Option Nat :=
  if base64Alphabet.indexOf c < 64 then some (base64Alphabet.indexOf c) else none

/-- Standard base64 encoding of a byte sequence (the encoding
`FileReader.readAsDataURL` applies to the blob's bytes). -/
def base64Encode : List Nat → JStr
  | [] => []
  | [a] => [b64Char (a / 4), b64Char (a % 4 * 16), '=', '=']
  | [a, b] => [b64Char (a / 4), b64Char (a % 4 * 16 + b / 16), b64Char (b % 16 * 4), '=']
  | a :: b :: c :: rest =>
    b64Char (a / 4) :: b64Char (a % 4 * 16 + b / 16) :: b64Char (b % 16 * 4 + c / 64) ::
      b64Char (c % 64) :: base64Encode rest

/-- Standard base64 decoding, `none` on malformed input. -/
def base64Decode : JStr → Option (List Nat)
  | [] => some []
  | c0 :: c1 :: c2 :: c3 :: rest =>
    match b64DecodeChar c0, b64DecodeChar c1 with
    | some n0, some n1 =>
      if c2 = '=' then
        if c3 = '=' ∧ rest = [] then some [n0 * 4 + n1 / 16] else none
      else
        match b64DecodeChar c2 with
        | some n2 =>
          if c3 = '=' then
            if rest = [] then some [n0 * 4 + n1 / 16, n1 % 16 * 16 + n2 / 4] else none
          else
            match b64DecodeChar c3, base64Decode rest with
            | some n3, some bs =>
              some ((n0 * 4 + n1 / 16) :: (n1 % 16 * 16 + n2 / 4) :: (n2 % 4 * 64 + n3) :: bs)
            | _, _ => none
        | none => none
    | _, _ => none
  | _ => none

/-- A binary blob: its bytes and its MIME type. -/
structure Blob where
  data : List Nat
  btype : JStr
deriving DecidableEq, Repr

/-- `blob.size`: the byte count. -/
def Blob.size (b : Blob) : Nat := b.data.length

/-- The data URL produced by `FileReader.readAsDataURL`:
`data:<mime>;base64,<payload>`. -/
def readAsDataURL (blob : Blob) : JStr :=
  "data:".data ++ blob.btype ++ ";base64,".data ++ base64Encode blob.data

/-- `convertBlobToBase64(blob)` from `VoiceRecorder`: read the blob as a data
URL and return `base64String.split(',')[1]`, the bare base64 payload. -/
def convertBlobToBase64 (blob : Blob) : JStr :=
  (splitJ ',' (readAsDataURL blob)).getD 1 []

/-! ## The `VoiceRecorder` state machine -/

/-- The platform recorder's state (`MediaRecorder.state`). -/
inductive MRState where
  | recording
  | inactive
deriving DecidableEq, Repr

/-- The platform `MediaRecorder` object held by the wrapper. -/
structure MediaRecorderM where
  mimeType : JStr
  mrState : MRState
deriving DecidableEq, Repr

/-- The `VoiceRecorder` instance fields: `mediaRecorder`, `audioChunks`,
`stream` (the stream is the list of its acquired device-track ids). -/
structure Recorder where
  mediaRecorder : Option MediaRecorderM
  audioChunks : List (List Nat)
  stream : Option (List Nat)
deriving DecidableEq, Repr

/-- A freshly constructed `VoiceRecorder`: all fields null/empty. -/
def initialRecorder : Recorder := ⟨none, [], none⟩

/-- The ordered MIME-type preference list of `startRecording`. -/
def mimeTypesPref : List JStr :=
  ["audio/webm;codecs=opus".data, "audio/webm".data, "audio/mp4".data,
   "audio/mpeg".data]

/-- Result of the platform's `getUserMedia` call. -/
inductive AcquireResult where
  | granted (tracks : List Nat)
  | notAllowedError
  | notFoundError
  | otherError (msg : JStr)

/-- The error taxonomy of the audio capture session. -/
inductive RecError where
  | permissionDenied
  | deviceNotFound
  | captureError (msg : JStr)
  | unsupportedFormat
  | notRecording
deriving DecidableEq, Repr

/-- `startRecording()` from `VoiceRecorder`, parameterised by the platform's
permission outcome and MIME support predicate.  On grant the stream is
stored first; then the first supported MIME type is selected (failing with
the unsupported-format error if none is, the stream remaining assigned, as
in the source); on success a fresh recording `MediaRecorder` is installed
and the chunk buffer cleared. -/
def startRecording (acquire : AcquireResult) (isTypeSupported : JStr → Bool)
    (s : Recorder) : Option RecError × Recorder :=
  match acquire with
  | .notAllowedError => (some .permissionDenied, s)
  | .notFoundError => (some .deviceNotFound, s)
  | .otherError msg => (some (.captureError msg), s)
  | .granted tracks =>
    let s1 : Recorder := { s with stream := some tracks }
    match mimeTypesPref.find? isTypeSupported with
    | none => (some .unsupportedFormat, s1)
    | some selectedMimeType =>
      (none, { s1 with
        mediaRecorder := some ⟨selectedMimeType, .recording⟩,
        audioChunks := [] })

/-- The `ondataavailable` handler: while a recorder is installed and
recording, a chunk of positive size is appended to the buffer. -/
def dataAvailable (chunk : List Nat) (s : Recorder) : Recorder :=
  match s.mediaRecorder with
  | some mr =>
    if mr.mrState = .recording ∧ 0 < chunk.length then
      { s with audioChunks := s.audioChunks ++ [chunk] }
    else s
  | none => s

/-- `cleanup()` from `VoiceRecorder`: call `stop()` on every track of the
stream (the returned list records those release calls, in order), then null
the stream and recorder and clear the chunk buffer. -/
def cleanup (s : Recorder) : Recorder × List Nat :=
  (⟨none, [], none⟩, match s.stream with | some tracks => tracks | none => [])

/-- Outcome of `stopRecording()`: the promise rejects, resolves with the
final blob, or (when the installed recorder is not recording, so the
platform's `onstop` never fires) stays pending. -/
inductive StopOutcome where
  | errored (e : RecError)
  | finalized (b : Blob)
  | pending
deriving DecidableEq, Repr

/-- `stopRecording()` from `VoiceRecorder`: rejects with the not-recording
error when no recorder is installed; otherwise, on the platform's stop
notification, builds one blob from all buffered chunks in order, tagged
`mediaRecorder.mimeType || 'audio/webm'`, then runs `cleanup`.  Returns the
outcome, the post-state, and the device-track release calls made. -/
def stopRecording (s : Recorder) : StopOutcome × Recorder × List Nat :=
  match s.mediaRecorder with
  | none => (.errored .notRecording, s, [])
  | some mr =>
    match mr.mrState with
    | .inactive => (.pending, s, [])
    | .recording =>
      let audioBlob : Blob :=
        ⟨s.audioChunks.flatten,
         if mr.mimeType.isEmpty then "audio/webm".data else mr.mimeType⟩
      ((.finalized audioBlob, (cleanup s).1, (cleanup s).2) :
        StopOutcome × Recorder × List Nat)

/-- `isRecording()` from `VoiceRecorder`:
`this.mediaRecorder?.state === 'recording'`. -/
def isRecordingJ (s : Recorder) : Bool :=
  match s.mediaRecorder with
  | some mr => mr.mrState = .recording
  | none => false

/-- The recorder states reachable through the wrapper's API from a fresh
instance. -/
inductive Reach : Recorder → Prop where
  | init : Reach initialRecorder
  | start (acquire : AcquireResult) (isTypeSupported : JStr → Bool)
      (s : Recorder) : Reach s → Reach (startRecording acquire isTypeSupported s).2
  | data (chunk : List Nat) (s : Recorder) : Reach s → Reach (dataAvailable chunk s)
  | stop (s : Recorder) : Reach s → Reach (stopRecording s).2.1

/-- A whole capture session: start from a fresh recorder with the given
granted tracks, deliver the given chunks, then stop; the result is the list
of device-track release calls the session made. -/
def sessionTrackStops (tracks : List Nat) (isTypeSupported : JStr → Bool)
    (chunks : List (List Nat)) : List Nat :=
  (stopRecording
    (chunks.foldl (fun s ch => dataAvailable ch s)
      (startRecording (.granted tracks) isTypeSupported initialRecorder).2)).2.2

/-! ## The chat send path (`handleSend` from `ChatBot`) -/

/-- A chat message (`Message` in `ChatBot`); timestamps are abstract ticks. -/
structure ChatMessage where
  id : JStr
  text : JStr
  isBot : Bool
  timestamp : Nat
deriving DecidableEq, Repr

/-- The `ChatBot` state touched by `handleSend`. -/
structure ChatState where
  messages : List ChatMessage
  input : JStr
  isTyping : Bool
deriving DecidableEq, Repr

/-- An external effect issued by `handleSend` (a conversation-log insert). -/
inductive ChatAction where
  | saveMessage (userId : JStr) (m : ChatMessage)
deriving DecidableEq, Repr

/-- `handleSend()` from `ChatBot`, with the delayed bot-response callback
modelled as completed: a blank (trimmed-empty) input returns immediately;
otherwise the user message is appended and persisted when logged in, the
input cleared, and the generated bot response appended and persisted. -/
def handleSend (user : Option JStr) (now : Nat) (topics : List HealthInfo)
    (s : ChatState) : ChatState × List ChatAction :=
  if (trimJ s.input).isEmpty then (s, [])
  else
    let userMessage : ChatMessage := ⟨(Nat.repr now).data, s.input, false, now⟩
    let botResponse : ChatMessage :=
      ⟨(Nat.repr (now + 1)).data, generateHealthResponse userMessage.text topics,
       true, now⟩
    ({ messages := s.messages ++ [userMessage, botResponse],
       input := [], isTyping := false },
     match user with
     | some uid => [.saveMessage uid userMessage, .saveMessage uid botResponse]
     | none => [])

/-! ## Helper lemmas -/

theorem matchCount_self (a : JStr) : matchCount a a = a.length := by
  induction a with
  | nil => rfl
  | cons c cs ih =>
    simp [matchCount, ih, Nat.add_comm]

theorem tier1_iff (terms : List JStr) (info : HealthInfo) :
    tier1 terms info = true ↔ ∃ t ∈ terms, toLowerJ info.title = t := by
  simp [tier1]

theorem splitJ_ne_nil (sep : Char) (cs : JStr) : splitJ sep cs ≠ [] := by
  cases cs with
  | nil => simp [splitJ]
  | cons c cs =>
    rw [splitJ]
    split
    · simp
    · split <;> simp

theorem splitJ_sep_not_mem (sep : Char) (cs : JStr) :
    ∀ w ∈ splitJ sep cs, sep ∉ w := by
  induction cs with
  | nil =>
    intro w hw
    simp [splitJ] at hw
    simp [hw]
  | cons c cs ih =>
    intro w hw
    by_cases hc : c = sep
    · rw [splitJ, if_pos hc] at hw
      rcases List.mem_cons.mp hw with h | h
      · simp [h]
      · exact ih w h
    · obtain ⟨w', ws, hsplit⟩ := List.exists_cons_of_ne_nil (splitJ_ne_nil sep cs)
      rw [splitJ, if_neg hc, hsplit] at hw
      have hw' : w ∈ (c :: w') :: ws := hw
      rcases List.mem_cons.mp hw' with rfl | h
      · intro hmem
        rcases List.mem_cons.mp hmem with h' | h'
        · exact hc h'.symm
        · exact ih w' (hsplit ▸ List.mem_cons_self w' ws) h'
      · exact ih w (hsplit ▸ List.mem_cons_of_mem w' h)

theorem searchTerms_no_space (userInput : JStr) :
    ∀ t ∈ searchTermsOf userInput, ' ' ∉ t := by
  intro t ht
  exact splitJ_sep_not_mem ' ' (toLowerJ userInput) t (List.mem_of_mem_filter ht)

/-! ## C1: exact title match has top priority -/

/-- C1: for every input string and every topic list, if some search term
(a lower-cased space-delimited word of the input with length > 2) exactly
equals some topic's lower-cased title, then the matcher returns the first
topic in original table order whose lower-cased title exactly equals a
search term, regardless of what lower tiers would match. -/
theorem exact_title_match_wins (userInput : JStr) (topics : List HealthInfo)
    (h : ∃ info ∈ topics, ∃ t ∈ searchTermsOf userInput, toLowerJ info.title = t) :
    ∃ j, ∃ hj : j < topics.length,
      searchHealthInformation userInput topics = some topics[j] ∧
      (∃ t ∈ searchTermsOf userInput, toLowerJ topics[j].title = t) ∧
      ∀ k, (hk : k < j) → ¬ ∃ t ∈ searchTermsOf userInput, toLowerJ topics[k].title = t := by
  have hsome : (topics.find? (tier1 (searchTermsOf userInput))).isSome := by
    rw [List.find?_isSome]
    obtain ⟨info, hinfo, ht⟩ := h
    exact ⟨info, hinfo, (tier1_iff _ _).mpr ht⟩
  obtain ⟨b, hb⟩ := Option.isSome_iff_exists.mp hsome
  obtain ⟨hpb, i, hi, hbi, hprev⟩ := List.find?_eq_some_iff_getElem.mp hb
  refine ⟨i, hi, ?_, ?_, ?_⟩
  · unfold searchHealthInformation
    rw [hb]
    exact congrArg some hbi.symm
  · exact (tier1_iff _ _).mp (hbi ▸ hpb)
  · intro k hk hcontra
    have := hprev k hk
    rw [Bool.not_eq_eq_eq_not, Bool.not_true] at this
    rw [(tier1_iff _ _).mpr hcontra] at this
    exact absurd this (by decide)

/-- Witness for C1 at the spec's own scenario: input `"I have diabetes"`
with a single-topic table titled `"Diabetes"`. -/
theorem exact_title_match_wins_witness :
    ∃ j, ∃ hj : j < ([⟨"1".data, "Diabetes".data, "High blood sugar".data,
        "Endocrine".data, "blood sugar, insulin".data⟩] : List HealthInfo).length,
      searchHealthInformation "I have diabetes".data
        [⟨"1".data, "Diabetes".data, "High blood sugar".data,
          "Endocrine".data, "blood sugar, insulin".data⟩] =
        some ([⟨"1".data, "Diabetes".data, "High blood sugar".data,
          "Endocrine".data, "blood sugar, insulin".data⟩] : List HealthInfo)[j] ∧
      (∃ t ∈ searchTermsOf "I have diabetes".data,
        toLowerJ ([⟨"1".data, "Diabetes".data, "High blood sugar".data,
          "Endocrine".data, "blood sugar, insulin".data⟩] : List HealthInfo)[j].title = t) ∧
      ∀ k, (hk : k < j) → ¬ ∃ t ∈ searchTermsOf "I have diabetes".data,
        toLowerJ ([⟨"1".data, "Diabetes".data, "High blood sugar".data,
          "Endocrine".data, "blood sugar, insulin".data⟩] : List HealthInfo)[k].title = t :=
  exact_title_match_wins "I have diabetes".data _ (by decide)

/-! ## C4: similarity laws -/

/-- C4: `calculateSimilarity a a = 1` for every string of length ≥ 3, and
`calculateSimilarity a b = 0` whenever either string has length < 3. -/
theorem similarity_laws (a b : JStr) :
    (3 ≤ a.length → calculateSimilarity a a = 1) ∧
    ((a.length < 3 ∨ b.length < 3) → calculateSimilarity a b = 0) := by
  constructor
  · intro h
    have hne : ¬ (a.length < 3 ∨ a.length < 3) := by omega
    simp only [calculateSimilarity, if_neg hne, lt_irrefl, if_false, gt_iff_lt]
    rw [if_neg (by omega : ¬ a.length = 0), matchCount_self]
    exact div_self (by exact_mod_cast (by omega : a.length ≠ 0))
  · intro h
    simp [calculateSimilarity, if_pos h]

/-- Witness for C4 at `a = "abc"` (self-similarity 1) and the short pair
`("ab", "abcd")` (similarity 0). -/
theorem similarity_laws_witness :
    calculateSimilarity "abc".data "abc".data = 1 ∧
    calculateSimilarity "ab".data "abcd".data = 0 :=
  ⟨(similarity_laws "abc".data "abc".data).1 (by decide),
   (similarity_laws "ab".data "abcd".data).2 (by decide)⟩

/-! ## C10: multi-word titles are unreachable at tier 1 -/

/-- C10: search terms are produced by splitting on the space character, so
no search term contains a space; hence the tier-1 exact-title comparison can
never succeed for a topic whose title contains a space. -/
theorem multiword_title_unreachable_at_tier1 (userInput : JStr) (info : HealthInfo)
    (hsp : ' ' ∈ info.title) :
    (∀ t ∈ searchTermsOf userInput, ' ' ∉ t) ∧
    (∀ t ∈ searchTermsOf userInput, toLowerJ info.title ≠ t) ∧
    tier1 (searchTermsOf userInput) info = false := by
  have hspace : ' ' ∈ toLowerJ info.title := by
    exact List.mem_map.mpr ⟨' ', hsp, by decide⟩
  have hterm : ∀ t ∈ searchTermsOf userInput, toLowerJ info.title ≠ t := by
    intro t ht heq
    exact searchTerms_no_space userInput t ht (heq ▸ hspace)
  refine ⟨searchTerms_no_space userInput, hterm, ?_⟩
  rw [← Bool.not_eq_true, tier1_iff]
  rintro ⟨t, ht, heq⟩
  exact hterm t ht heq

/-- Witness for C10: input `"heart disease"` against a topic titled
`"heart disease"` — despite the words matching, tier 1 cannot fire. -/
theorem multiword_title_unreachable_at_tier1_witness :
    (∀ t ∈ searchTermsOf "heart disease".data, ' ' ∉ t) ∧
    (∀ t ∈ searchTermsOf "heart disease".data,
      toLowerJ ("heart disease".data : JStr) ≠ t) ∧
    tier1 (searchTermsOf "heart disease".data)
      ⟨"1".data, "heart disease".data, "d".data, "cardiac".data, "".data⟩ = false :=
  multiword_title_unreachable_at_tier1 "heart disease".data
    ⟨"1".data, "heart disease".data, "d".data, "cardiac".data, "".data⟩ (by decide)

/-! ## C2: totality and the generic fallback -/

/-- C2: the response generator is total (it is a Lean function), and for
every input with no tier match against the topic table, no disease keyword,
and no fixed-topic keyword, it returns the one fixed generic disclaimer. -/
theorem generic_fallback_total (userInput : JStr) (topics : List HealthInfo)
    (hsearch : searchHealthInformation userInput topics = none)
    (hdisease : isDiseaseQuery (toLowerJ userInput) = false)
    (hkw : ∀ kw ∈ fixedTopicKeywords, includesJ (toLowerJ userInput) kw = false) :
    generateHealthResponse userInput topics = genericResponse := by
  have h1 := hkw "exercise".data (by simp [fixedTopicKeywords])
  have h2 := hkw "workout".data (by simp [fixedTopicKeywords])
  have h3 := hkw "fitness".data (by simp [fixedTopicKeywords])
  have h4 := hkw "diet".data (by simp [fixedTopicKeywords])
  have h5 := hkw "nutrition".data (by simp [fixedTopicKeywords])
  have h6 := hkw "food".data (by simp [fixedTopicKeywords])
  have h7 := hkw "sleep".data (by simp [fixedTopicKeywords])
  have h8 := hkw "tired".data (by simp [fixedTopicKeywords])
  have h9 := hkw "insomnia".data (by simp [fixedTopicKeywords])
  have h10 := hkw "stress".data (by simp [fixedTopicKeywords])
  have h11 := hkw "anxiety".data (by simp [fixedTopicKeywords])
  have h12 := hkw "mental health".data (by simp [fixedTopicKeywords])
  unfold generateHealthResponse
  rw [hsearch]
  simp only [hdisease, h1, h2, h3, h4, h5, h6, h7, h8, h9, h10, h11, h12,
    Bool.or_self, Bool.or_false, Bool.false_or, if_false, Bool.false_eq_true]

/-- Witness for C2 at the spec's own scenario `"xyzzy plugh"` with an empty
topic table. -/
theorem generic_fallback_total_witness :
    generateHealthResponse "xyzzy plugh".data [] = genericResponse :=
  generic_fallback_total "xyzzy plugh".data [] (by rfl) (by decide) (by decide)

/-! ## C3: the tier-4 condition (corrected: title words only) -/

/-- C3 counterexample: input `"carefully"` against the topic
`{title: "zzz", category: "care", tags: ""}`.  Tiers 1–3 all fail, the
spec's tier-4 condition holds (the category word `"care"` is contained in
the search term `"carefully"`), yet the matcher returns no topic: the
code's tier 4 inspects title words only, never category or tag words. -/
theorem fuzzy_tier_claim_counterexample :
    List.find? (tier1 (searchTermsOf "carefully".data))
      [⟨"1".data, "zzz".data, "d".data, "care".data, "".data⟩] = none ∧
    List.find? (tier2 (searchTermsOf "carefully".data))
      [⟨"1".data, "zzz".data, "d".data, "care".data, "".data⟩] = none ∧
    List.find? (tier3 (searchTermsOf "carefully".data))
      [⟨"1".data, "zzz".data, "d".data, "care".data, "".data⟩] = none ∧
    specTier4 (searchTermsOf "carefully".data)
      ⟨"1".data, "zzz".data, "d".data, "care".data, "".data⟩ = true ∧
    searchHealthInformation "carefully".data
      [⟨"1".data, "zzz".data, "d".data, "care".data, "".data⟩] = none := by
  decide

/-- C3 (amended): once tiers 1–3 have failed, the tier-4 fuzzy stage fires
exactly when some word of the topic's *title* (only — category and tags are
not consulted at this tier) overlaps a search term via substring containment
in either direction, or has character-position similarity strictly greater
than 0.7 with a search term. -/
theorem fuzzy_tier_exact_condition (userInput : JStr) (topics : List HealthInfo)
    (h1 : topics.find? (tier1 (searchTermsOf userInput)) = none)
    (h2 : topics.find? (tier2 (searchTermsOf userInput)) = none)
    (h3 : topics.find? (tier3 (searchTermsOf userInput)) = none) :
    (searchHealthInformation userInput topics).isSome ↔
      ∃ info ∈ topics, ∃ t ∈ searchTermsOf userInput,
        ∃ w ∈ splitJ ' ' (toLowerJ info.title),
          includesJ w t = true ∨ includesJ t w = true ∨
          (7 : ℚ) / 10 < calculateSimilarity w t := by
  unfold searchHealthInformation
  rw [h1, h2, h3, List.find?_isSome]
  simp only [tier4, List.any_eq_true, Bool.or_eq_true, decide_eq_true_eq,
    gt_iff_lt, or_assoc]

/-- Witness for the amended C3 at the counterexample's input: with tiers 1–3
failed, the matcher finds nothing precisely because no *title* word of the
topic overlaps `"carefully"`. -/
theorem fuzzy_tier_exact_condition_witness :
    (searchHealthInformation "carefully".data
        [⟨"1".data, "zzz".data, "d".data, "care".data, "".data⟩]).isSome ↔
      ∃ info ∈ ([⟨"1".data, "zzz".data, "d".data, "care".data, "".data⟩] :
          List HealthInfo),
        ∃ t ∈ searchTermsOf "carefully".data,
          ∃ w ∈ splitJ ' ' (toLowerJ info.title),
            includesJ w t = true ∨ includesJ t w = true ∨
            (7 : ℚ) / 10 < calculateSimilarity w t :=
  fuzzy_tier_exact_condition "carefully".data _ (by decide) (by decide) (by decide)

/-! ## C5: base64 round trip through `convertBlobToBase64` -/

theorem b64DecodeChar_b64Char : ∀ n, n < 64 → b64DecodeChar (b64Char n) = some n := by
  decide

theorem b64Char_ne_eq : ∀ n, n < 64 → b64Char n ≠ '=' := by decide

theorem b64Char_mem (n : Nat) : b64Char n ∈ base64Alphabet := by
  by_cases h : n < 64
  · revert h
    revert n
    decide
  · unfold b64Char
    rw [List.getD_eq_default _ _ (by simpa [base64Alphabet] using Nat.le_of_not_lt h)]
    decide

theorem mem_base64Encode {c : Char} {bs : List Nat} (h : c ∈ base64Encode bs) :
    c ∈ base64Alphabet ∨ c = '=' := by
  induction bs using base64Encode.induct with
  | case1 => simp [base64Encode] at h
  | case2 a =>
    rw [base64Encode] at h
    simp only [List.mem_cons, List.not_mem_nil, or_false] at h
    rcases h with rfl | rfl | rfl | rfl
    · exact Or.inl (b64Char_mem _)
    · exact Or.inl (b64Char_mem _)
    · exact Or.inr rfl
    · exact Or.inr rfl
  | case3 a b =>
    rw [base64Encode] at h
    simp only [List.mem_cons, List.not_mem_nil, or_false] at h
    rcases h with rfl | rfl | rfl | rfl
    · exact Or.inl (b64Char_mem _)
    · exact Or.inl (b64Char_mem _)
    · exact Or.inl (b64Char_mem _)
    · exact Or.inr rfl
  | case4 a b c rest ih =>
    rw [base64Encode] at h
    simp only [List.mem_cons] at h
    rcases h with rfl | rfl | rfl | rfl | h
    · exact Or.inl (b64Char_mem _)
    · exact Or.inl (b64Char_mem _)
    · exact Or.inl (b64Char_mem _)
    · exact Or.inl (b64Char_mem _)
    · exact ih h

theorem comma_not_mem_base64Encode (bs : List Nat) : ',' ∉ base64Encode bs := by
  intro h
  rcases mem_base64Encode h with h' | h'
  · revert h'
    decide
  · exact absurd h' (by decide)

theorem splitJ_eq_single {sep : Char} {xs : JStr} (h : sep ∉ xs) :
    splitJ sep xs = [xs] := by
  induction xs with
  | nil => rfl
  | cons c cs ih =>
    rw [splitJ, if_neg (fun (hc : c = sep) => h (hc ▸ List.mem_cons_self c cs)),
      ih (fun hm => h (List.mem_cons_of_mem c hm))]

theorem splitJ_append_sep {sep : Char} {pre rest : JStr} (h : sep ∉ pre) :
    splitJ sep (pre ++ sep :: rest) = pre :: splitJ sep rest := by
  induction pre with
  | nil => simp [splitJ]
  | cons c cs ih =>
    have hc : ¬ c = sep := fun (hcc : c = sep) => h (hcc ▸ List.mem_cons_self c cs)
    rw [List.cons_append, splitJ, if_neg hc,
      ih (fun hm => h (List.mem_cons_of_mem c hm))]

theorem base64Decode_base64Encode (bs : List Nat) (h : ∀ b ∈ bs, b < 256) :
    base64Decode (base64Encode bs) = some bs := by
  induction bs using base64Encode.induct with
  | case1 => rfl
  | case2 a =>
    have ha : a < 256 := h a (by simp)
    rw [base64Encode, base64Decode]
    rw [b64DecodeChar_b64Char (a / 4) (by omega),
        b64DecodeChar_b64Char (a % 4 * 16) (by omega)]
    simp only [if_pos rfl, and_self, reduceIte]
    have e : a / 4 * 4 + a % 4 * 16 / 16 = a := by omega
    rw [e]
  | case3 a b =>
    have ha : a < 256 := h a (by simp)
    have hb : b < 256 := h b (by simp)
    rw [base64Encode, base64Decode]
    rw [b64DecodeChar_b64Char (a / 4) (by omega),
        b64DecodeChar_b64Char (a % 4 * 16 + b / 16) (by omega)]
    dsimp only
    rw [if_neg (b64Char_ne_eq (b % 16 * 4) (by omega))]
    rw [b64DecodeChar_b64Char (b % 16 * 4) (by omega)]
    dsimp only
    have e1 : a / 4 * 4 + (a % 4 * 16 + b / 16) / 16 = a := by omega
    have e2 : (a % 4 * 16 + b / 16) % 16 * 16 + b % 16 * 4 / 4 = b := by omega
    rw [e1, e2]
    simp
  | case4 a b c rest ih =>
    have ha : a < 256 := h a (by simp)
    have hb : b < 256 := h b (by simp)
    have hc : c < 256 := h c (by simp)
    have hrest : ∀ x ∈ rest, x < 256 := fun x hx => h x (by simp [hx])
    rw [base64Encode, base64Decode]
    rw [b64DecodeChar_b64Char (a / 4) (by omega),
        b64DecodeChar_b64Char (a % 4 * 16 + b / 16) (by omega)]
    dsimp only
    rw [if_neg (b64Char_ne_eq (b % 16 * 4 + c / 64) (by omega))]
    rw [b64DecodeChar_b64Char (b % 16 * 4 + c / 64) (by omega)]
    dsimp only
    rw [if_neg (b64Char_ne_eq (c % 64) (by omega))]
    rw [b64DecodeChar_b64Char (c % 64) (by omega), ih hrest]
    dsimp only
    have e1 : a / 4 * 4 + (a % 4 * 16 + b / 16) / 16 = a := by omega
    have e2 : (a % 4 * 16 + b / 16) % 16 * 16 + (b % 16 * 4 + c / 64) / 4 = b := by omega
    have e3 : (b % 16 * 4 + c / 64) % 4 * 64 + c % 64 = c := by omega
    rw [e1, e2, e3]

/-- C5: for every blob of known bytes (with a comma-free MIME type, as all
the recorder's negotiated types are), `convertBlobToBase64` followed by
base64 decoding reproduces the original bytes exactly. -/
theorem convertBlobToBase64_roundtrip (blob : Blob)
    (hbytes : ∀ b ∈ blob.data, b < 256) (hmime : ',' ∉ blob.btype) :
    base64Decode (convertBlobToBase64 blob) = some blob.data := by
  have hpre : ',' ∉ "data:".data ++ blob.btype ++ ";base64".data := by
    simp only [List.mem_append]
    rintro ((h | h) | h)
    · exact absurd h (by decide)
    · exact hmime h
    · exact absurd h (by decide)
  have hurl : readAsDataURL blob =
      ("data:".data ++ blob.btype ++ ";base64".data) ++
        ',' :: base64Encode blob.data := by
    unfold readAsDataURL
    have : (";base64,".data : JStr) = ";base64".data ++ [','] := by decide
    rw [this]
    simp [List.append_assoc]
  have hsplit : splitJ ',' (readAsDataURL blob) =
      ["data:".data ++ blob.btype ++ ";base64".data, base64Encode blob.data] := by
    rw [hurl, splitJ_append_sep hpre,
      splitJ_eq_single (comma_not_mem_base64Encode blob.data)]
  unfold convertBlobToBase64
  rw [hsplit]
  exact base64Decode_base64Encode blob.data hbytes

/-- Witness for C5 at the blob `[1, 255, 16]` with MIME type
`"audio/webm"`. -/
theorem convertBlobToBase64_roundtrip_witness :
    base64Decode (convertBlobToBase64 ⟨[1, 255, 16], "audio/webm".data⟩) =
      some [1, 255, 16] :=
  convertBlobToBase64_roundtrip ⟨[1, 255, 16], "audio/webm".data⟩
    (by decide) (by decide)

/-! ## Recorder helper lemmas -/

theorem dataAvailable_mediaRecorder (chunk : List Nat) (s : Recorder) :
    (dataAvailable chunk s).mediaRecorder = s.mediaRecorder := by
  obtain ⟨mro, cks, st⟩ := s
  unfold dataAvailable
  cases mro with
  | none => rfl
  | some mr =>
    dsimp only
    split <;> rfl

theorem dataAvailable_stream (chunk : List Nat) (s : Recorder) :
    (dataAvailable chunk s).stream = s.stream := by
  obtain ⟨mro, cks, st⟩ := s
  unfold dataAvailable
  cases mro with
  | none => rfl
  | some mr =>
    dsimp only
    split <;> rfl

theorem foldl_dataAvailable_mediaRecorder (chunks : List (List Nat)) (s : Recorder) :
    (chunks.foldl (fun s ch => dataAvailable ch s) s).mediaRecorder =
      s.mediaRecorder := by
  induction chunks generalizing s with
  | nil => rfl
  | cons ch chunks ih => rw [List.foldl_cons, ih, dataAvailable_mediaRecorder]

theorem foldl_dataAvailable_stream (chunks : List (List Nat)) (s : Recorder) :
    (chunks.foldl (fun s ch => dataAvailable ch s) s).stream = s.stream := by
  induction chunks generalizing s with
  | nil => rfl
  | cons ch chunks ih => rw [List.foldl_cons, ih, dataAvailable_stream]

/-- Across the wrapper's API, an installed `MediaRecorder` is always in the
`recording` state: `startRecording` installs a recording one, and
`stopRecording` nulls it on finalization. -/
theorem reach_recorder_recording {s : Recorder} (h : Reach s) :
    ∀ mr, s.mediaRecorder = some mr → mr.mrState = .recording := by
  induction h with
  | init =>
    intro mr hmr
    exact absurd hmr (by simp [initialRecorder])
  | start acquire isTypeSupported s hs ih =>
    intro mr hmr
    cases acquire with
    | notAllowedError => exact ih mr hmr
    | notFoundError => exact ih mr hmr
    | otherError msg => exact ih mr hmr
    | granted tracks =>
      unfold startRecording at hmr
      cases hfind : mimeTypesPref.find? isTypeSupported with
      | none =>
        rw [hfind] at hmr
        exact ih mr hmr
      | some mime =>
        rw [hfind] at hmr
        simp at hmr
        rw [← hmr]
  | data chunk s hs ih =>
    intro mr hmr
    rw [dataAvailable_mediaRecorder] at hmr
    exact ih mr hmr
  | stop s hs ih =>
    intro mr hmr
    unfold stopRecording at hmr
    cases hmro : s.mediaRecorder with
    | none =>
      rw [hmro] at hmr
      dsimp only at hmr
      exact ih mr hmr
    | some mr0 =>
      rw [hmro] at hmr
      dsimp only at hmr
      cases hst : mr0.mrState with
      | inactive =>
        rw [hst] at hmr
        dsimp only at hmr
        exact ih mr hmr
      | recording =>
        rw [hst] at hmr
        simp [cleanup] at hmr

/-! ## C6: stop when not recording -/

/-- C6: calling `stopRecording` on any reachable session state that is not
recording (in particular the fresh idle state) rejects with the
not-recording error and leaves the state unchanged, consuming no chunks and
releasing no tracks. -/
theorem stop_when_not_recording (s : Recorder) (h : Reach s)
    (hnr : isRecordingJ s = false) :
    stopRecording s = (.errored .notRecording, s, []) := by
  have hmr : s.mediaRecorder = none := by
    cases hmro : s.mediaRecorder with
    | none => rfl
    | some mr =>
      have hrec := reach_recorder_recording h mr hmro
      unfold isRecordingJ at hnr
      rw [hmro] at hnr
      dsimp only at hnr
      rw [hrec] at hnr
      exact absurd hnr (by decide)
  unfold stopRecording
  rw [hmr]

/-- Witness for C6 at the fresh idle recorder. -/
theorem stop_when_not_recording_witness :
    stopRecording initialRecorder = (.errored .notRecording, initialRecorder, []) :=
  stop_when_not_recording initialRecorder Reach.init (by decide)

/-! ## C7: every acquired track is released exactly once on stop -/

/-- C7: a session that acquires device tracks, buffers any number of chunks
(0 or more), and is then stopped releases exactly the acquired tracks — each
distinct track receiving exactly one stop call. -/
theorem stop_releases_each_track_once (tracks : List Nat)
    (isTypeSupported : JStr → Bool) (chunks : List (List Nat))
    (hmime : (mimeTypesPref.find? isTypeSupported).isSome)
    (hnd : tracks.Nodup) :
    sessionTrackStops tracks isTypeSupported chunks = tracks ∧
    ∀ t ∈ tracks, (sessionTrackStops tracks isTypeSupported chunks).count t = 1 := by
  obtain ⟨mime, hfind⟩ := Option.isSome_iff_exists.mp hmime
  have hstart : (startRecording (.granted tracks) isTypeSupported initialRecorder).2 =
      ⟨some ⟨mime, .recording⟩, [], some tracks⟩ := by
    unfold startRecording
    rw [hfind]
  have hstops : sessionTrackStops tracks isTypeSupported chunks = tracks := by
    unfold sessionTrackStops
    rw [hstart]
    have hmr := foldl_dataAvailable_mediaRecorder chunks
      ⟨some ⟨mime, .recording⟩, [], some tracks⟩
    have hst := foldl_dataAvailable_stream chunks
      ⟨some ⟨mime, .recording⟩, [], some tracks⟩
    unfold stopRecording
    rw [hmr]
    dsimp only
    unfold cleanup
    rw [hst]
  refine ⟨hstops, fun t ht => ?_⟩
  rw [hstops]
  exact List.count_eq_one_of_mem hnd ht

/-- Witness for C7: two distinct tracks, two chunks (one empty). -/
theorem stop_releases_each_track_once_witness :
    sessionTrackStops [0, 1] (fun _ => true) [[5], []] = [0, 1] ∧
    ∀ t ∈ [0, 1], (sessionTrackStops [0, 1] (fun _ => true) [[5], []]).count t = 1 :=
  stop_releases_each_track_once [0, 1] (fun _ => true) [[5], []]
    (by decide) (by decide)

/-! ## C8: the finalized blob is the in-order concatenation of the chunks -/

/-- C8: stopping a recording session finalizes one blob equal to the
concatenation of all buffered chunks in capture order, whose byte size is
the sum of the chunk sizes, tagged with the session's negotiated MIME
type. -/
theorem stop_finalizes_concatenated_blob (s : Recorder) (mr : MediaRecorderM)
    (h1 : s.mediaRecorder = some mr) (h2 : mr.mrState = .recording)
    (h3 : mr.mimeType.isEmpty = false) :
    ∃ b : Blob, (stopRecording s).1 = .finalized b ∧
      b.data = s.audioChunks.flatten ∧
      b.size = (s.audioChunks.map List.length).sum ∧
      b.btype = mr.mimeType := by
  refine ⟨⟨s.audioChunks.flatten, mr.mimeType⟩, ?_, rfl, ?_, rfl⟩
  · unfold stopRecording
    rw [h1]
    dsimp only
    rw [h2]
    dsimp only
    simp [h3]
  · unfold Blob.size
    exact List.length_flatten _

/-- Witness for C8 at the spec's scenario: chunks of 100 and 200 bytes
concatenate into one 300-byte blob tagged with the negotiated type. -/
theorem stop_finalizes_concatenated_blob_witness :
    ∃ b : Blob,
      (stopRecording ⟨some ⟨"audio/webm".data, .recording⟩,
        [List.replicate 100 7, List.replicate 200 9], some [0]⟩).1 = .finalized b ∧
      b.data = ([List.replicate 100 7, List.replicate 200 9] :
        List (List Nat)).flatten ∧
      b.size = 300 ∧
      b.btype = "audio/webm".data := by
  obtain ⟨b, hb1, hb2, hb3, hb4⟩ :=
    stop_finalizes_concatenated_blob
      ⟨some ⟨"audio/webm".data, .recording⟩,
        [List.replicate 100 7, List.replicate 200 9], some [0]⟩
      ⟨"audio/webm".data, .recording⟩ rfl rfl (by decide)
  refine ⟨b, hb1, hb2, ?_, hb4⟩
  rw [hb3]
  simp only [List.map_cons, List.map_nil, List.length_replicate,
    List.sum_cons, List.sum_nil]
  norm_num

/-! ## C9: a blank send is a no-op -/

/-- C9: for every whitespace-only (hence trimmed-empty) input, `handleSend`
appends no message, issues no persistence action, triggers no bot response,
and leaves the state unchanged. -/
theorem blank_send_noop (user : Option JStr) (now : Nat)
    (topics : List HealthInfo) (s : ChatState)
    (h : ∀ c ∈ s.input, isJsSpace c = true) :
    handleSend user now topics s = (s, []) := by
  have htrim : trimJ s.input = [] := by
    unfold trimJ
    rw [List.dropWhile_eq_nil_iff.mpr h]
    rfl
  unfold handleSend
  rw [htrim]
  rfl

/-- Witness for C9 at the whitespace-only input `" \t "` with a logged-in
user. -/
theorem blank_send_noop_witness :
    handleSend (some "u1".data) 42 [] ⟨[], " \t ".data, false⟩ =
      (⟨[], " \t ".data, false⟩, []) :=
  blank_send_noop (some "u1".data) 42 [] ⟨[], " \t ".data, false⟩ (by decide)

end CareBot
